import Mathlib

/-!
Verification of the raster warp / reprojection layer
(`src/raster/warp/{mod,create_and_reproject,reproject_options}.rs`).

The layer under study composes a mutable, engine-facing warp configuration
from an immutable user-facing options value, resolves dataset-derived
defaults (driver, SRS, band count), invokes the external warp engine and
applies a destination no-data metadata fixup.

Everything the three source files define is embedded directly from the
source.  The collaborators the source consumes but does not define here
(the `GdalWarpOptions` configuration object of `warp_options.rs`, the
resampling enum of `resample.rs`, datasets, the SRS capability, the driver
registry and the warp engine itself) are modelled from the specification's
description of their interfaces; each such definition is marked
`Modelled from the spec:` in its doc comment.
-/

/-- Modelled from the spec: 64-bit floating-point values (`f64`) are carried
opaquely by this layer — stored, compared for presence, defaulted to `0.0`,
broadcast per band — but never arithmetically combined.  Every finite `f64`
is exactly a rational, so we model the carried values as `Rat`. -/
abbrev F64 := Rat

/-- Error kinds of the layer (the crate-level `GdalError` variants this code
can produce): CString/nul failures, SRS serialization failure, unknown
driver, engine (CPL) failure, dataset-open failure, and the warp-options
failure of writing a no-data value before the per-band storage is sized. -/
inductive GdalError where
  | nulError : GdalError
  | srsSerializationError : GdalError
  | unknownDriver : String → GdalError
  | cplError : String → GdalError
  | openFailed : GdalError
  | noDataBeforeBandCount : GdalError
deriving DecidableEq, Repr

/-- Modelled from the spec: the resampling-algorithm enum of the missing
`resample.rs` (`WarpResampleAlg`); the glossary names nearest-neighbour and
bilinear, the default continuous-to-continuous algorithm is bilinear. -/
inductive WarpResampleAlg where
  | nearestNeighbour : WarpResampleAlg
  | bilinear : WarpResampleAlg
  | cubic : WarpResampleAlg
  | cubicSpline : WarpResampleAlg
  | lanczos : WarpResampleAlg
  | average : WarpResampleAlg
deriving DecidableEq, Repr

/-- Modelled from the spec: the optional working pixel datatype of the warp
configuration.  `auto` is the marker left by `with_auto_working_datatype`:
the engine derives the type from the source raster's native type. -/
inductive WorkingDataType where
  | auto : WorkingDataType
  | byte : WorkingDataType
  | uint16 : WorkingDataType
  | int16 : WorkingDataType
  | uint32 : WorkingDataType
  | int32 : WorkingDataType
  | float32 : WorkingDataType
  | float64 : WorkingDataType
deriving DecidableEq, Repr

/-- Modelled from the spec: the engine-facing warp configuration of the
missing `warp_options.rs` (`GdalWarpOptions`): resampling algorithm, optional
working datatype, memory limit, optional band count, and per-band no-data
arrays that exist only once sized to the band count. -/
structure GdalWarpOptions where
  resampling_alg : WarpResampleAlg := WarpResampleAlg.nearestNeighbour
  working_datatype : Option WorkingDataType := none
  memory_limit : Nat := 0
  band_count : Option Nat := none
  src_nodata : Option (List F64) := none
  dst_nodata : Option (List F64) := none
deriving DecidableEq, Repr

/-- Modelled from the spec: `with_band_count` establishes the band sizing on
the configuration; per-band storage becomes allocatable once this is set. -/
def GdalWarpOptions.with_band_count (w : GdalWarpOptions) (n : Nat) : GdalWarpOptions :=
  { w with band_count := some n }

/-- Modelled from the spec: apply the source no-data override, broadcast to
all bands.  Writing a no-data value before `band_count` is set is an error
(the underlying per-band storage does not exist until sized). -/
def GdalWarpOptions.apply_src_nodata (w : GdalWarpOptions) (nodata : F64) :
    Except GdalError GdalWarpOptions :=
  match w.band_count with
  | none => Except.error GdalError.noDataBeforeBandCount
  | some n => Except.ok { w with src_nodata := some (List.replicate n nodata) }

/-- Modelled from the spec: apply the destination no-data override, broadcast
to all bands; fails when the per-band storage is unsized. -/
def GdalWarpOptions.apply_dst_nodata (w : GdalWarpOptions) (nodata : F64) :
    Except GdalError GdalWarpOptions :=
  match w.band_count with
  | none => Except.error GdalError.noDataBeforeBandCount
  | some n => Except.ok { w with dst_nodata := some (List.replicate n nodata) }

/-- Modelled from the spec: `with_auto_working_datatype` marks the working
datatype for engine-side auto-derivation from the source raster's type. -/
def GdalWarpOptions.with_auto_working_datatype (w : GdalWarpOptions) : GdalWarpOptions :=
  { w with working_datatype := some WorkingDataType.auto }

/-- Modelled from the spec: the SRS capability — an SRS either serializes to
well-known text or is malformed and fails to serialize. -/
structure SpatialRef where
  wkt : Option String
deriving DecidableEq, Repr

/-- Modelled from the spec: serialize-to-text, fails on malformed definitions
(`SpatialRef::to_wkt`). -/
def SpatialRef.to_wkt (s : SpatialRef) : Except GdalError String :=
  match s.wkt with
  | some w => Except.ok w
  | none => Except.error GdalError.srsSerializationError

/-- Modelled from the spec: a raster band carries an optional no-data
metadata value settable through the dataset capability. -/
structure Band where
  noDataValue : Option F64 := none
deriving DecidableEq, Repr

/-- Modelled from the spec: the dataset capability — a raster dataset exposes
its bands (hence its band count) and the driver that owns it. -/
structure Dataset where
  bands : List Band
  driver : String
deriving DecidableEq, Repr

/-- Band count of a dataset (`Dataset::raster_count`). -/
def Dataset.raster_count (d : Dataset) : Nat := d.bands.length

/-- Modelled from the spec: the persisted raster files, as a path-indexed
store; the most recent write at a path shadows older ones. -/
abbrev FileSystem := List (String × Dataset)

/-- Look a dataset up by path (`Dataset::open`, which fails when absent). -/
def fsLookup (fs : FileSystem) (path : String) : Option Dataset :=
  match fs with
  | [] => none
  | (p, d) :: rest => if p = path then some d else fsLookup rest path

/-- Write a dataset at a path (the engine creating the output file). -/
def fsInsert (fs : FileSystem) (path : String) (d : Dataset) : FileSystem :=
  (path, d) :: fs

/-- True when the string holds an interior nul byte, which makes C-string
conversion fail. -/
def hasInteriorNul (s : String) : Bool :=
  s.toList.any (fun c => c = Char.ofNat 0)

/-- Path-to-C-string conversion (`_path_to_c_string`), fallible on nul. -/
def pathToCString (p : String) : Except GdalError String :=
  if hasInteriorNul p then Except.error GdalError.nulError else Except.ok p

/-- `CString::new`, fallible on an interior nul byte. -/
def cstringNew (s : String) : Except GdalError String :=
  if hasInteriorNul s then Except.error GdalError.nulError else Except.ok s

/-- Modelled from the spec: driver-registry lookup by format identifier
(`DriverManager::get_driver_by_name`), failing on an unknown identifier. -/
def get_driver_by_name (registry : List String) (name : String) : Except GdalError String :=
  if name ∈ registry then Except.ok name else Except.error (GdalError.unknownDriver name)

/-- `Except` success test, used to state claims without naming the payload. -/
def isOkE {ε α : Type} (e : Except ε α) : Bool :=
  match e with
  | Except.ok _ => true
  | Except.error _ => false

/-- The argument vector handed to `GDALCreateAndReprojectImage`: source
dataset, source SRS text or null, destination path, destination SRS text,
driver, resampling algorithm, memory limit, max error, and the compiled
warp configuration. -/
structure EngineCall where
  srcDataset : Dataset
  srcSrs : Option String
  dstPath : String
  dstSrs : String
  driver : String
  resampling_alg : WarpResampleAlg
  memory_limit : Nat
  maxError : F64
  warpOptions : GdalWarpOptions
deriving DecidableEq, Repr

/-- Modelled from the spec: the one-shot engine call either succeeds, writing
the warped dataset at the destination path (its immediate output is known to
omit destination no-data metadata), or fails with a diagnostic message. -/
inductive EngineOutcome where
  | success : Dataset → EngineOutcome
  | failure : String → EngineOutcome

/-- Modelled from the spec: the runtime environment — the driver registry and
the black-box warp engine. -/
structure Env where
  registry : List String
  engine : EngineCall → EngineOutcome

/-- `CreateReprojectOptions` (create_and_reproject.rs, lines 12-20): warp
configuration draft plus max error, source-SRS override, scalar no-data
overrides and output format. -/
structure CreateReprojectOptions where
  warp_options : GdalWarpOptions := {}
  max_error : Option F64 := none
  src_srs : Option SpatialRef := none
  src_nodata : Option F64 := none
  dst_nodata : Option F64 := none
  output_format : Option String := none
deriving DecidableEq, Repr

/-- `CreateReprojectOptions::src_projection`. -/
def CreateReprojectOptions.src_projection (o : CreateReprojectOptions) : Option SpatialRef :=
  o.src_srs

/-- `ReprojectOptions` (reproject_options.rs, lines 7-14); same field layout
as `CreateReprojectOptions`. -/
structure ReprojectOptions where
  warp_options : GdalWarpOptions := {}
  max_error : Option F64 := none
  src_srs : Option SpatialRef := none
  src_nodata : Option F64 := none
  dst_nodata : Option F64 := none
  output_format : Option String := none
deriving DecidableEq, Repr

/-- `ReprojectIntoOptions` (reproject_options.rs, lines 156-163): additionally
carries an optional destination-SRS override, and no output format. -/
structure ReprojectIntoOptions where
  warp_options : GdalWarpOptions := {}
  max_error : Option F64 := none
  src_srs : Option SpatialRef := none
  dst_srs : Option SpatialRef := none
  src_nodata : Option F64 := none
  dst_nodata : Option F64 := none
deriving DecidableEq, Repr

/-- `ReprojectOptions::clone_and_init_warp_options` (reproject_options.rs,
lines 129-151): clone the draft; if either no-data override is present, set
the band count first; then apply the source and destination overrides; then
auto-derive the working datatype if unset. -/
def ReprojectOptions.clone_and_init_warp_options (self : ReprojectOptions)
    (band_count : Nat) : Except GdalError GdalWarpOptions :=
  let warp_options :=
    if self.src_nodata.isSome || self.dst_nodata.isSome then
      self.warp_options.with_band_count band_count
    else self.warp_options
  match (match self.src_nodata with
         | some v => warp_options.apply_src_nodata v
         | none => Except.ok warp_options) with
  | Except.error e => Except.error e
  | Except.ok w1 =>
    match (match self.dst_nodata with
           | some v => w1.apply_dst_nodata v
           | none => Except.ok w1) with
    | Except.error e => Except.error e
    | Except.ok w2 =>
      Except.ok (if w2.working_datatype.isNone then w2.with_auto_working_datatype else w2)

/-- `ReprojectIntoOptions::clone_and_init_warp_options` (reproject_options.rs,
lines 262-284): textually the same pipeline as the `ReprojectOptions` one. -/
def ReprojectIntoOptions.clone_and_init_warp_options (self : ReprojectIntoOptions)
    (band_count : Nat) : Except GdalError GdalWarpOptions :=
  let warp_options :=
    if self.src_nodata.isSome || self.dst_nodata.isSome then
      self.warp_options.with_band_count band_count
    else self.warp_options
  match (match self.src_nodata with
         | some v => warp_options.apply_src_nodata v
         | none => Except.ok warp_options) with
  | Except.error e => Except.error e
  | Except.ok w1 =>
    match (match self.dst_nodata with
           | some v => w1.apply_dst_nodata v
           | none => Except.ok w1) with
    | Except.error e => Except.error e
    | Except.ok w2 =>
      Except.ok (if w2.working_datatype.isNone then w2.with_auto_working_datatype else w2)

/-- The inline compilation sequence of `create_and_reproject_image`
(create_and_reproject.rs, lines 151-169): clone, conditional band sizing,
no-data application, auto working datatype. -/
def createReprojectCompile (options : CreateReprojectOptions) (band_count : Nat) :
    Except GdalError GdalWarpOptions :=
  let warp_options :=
    if options.src_nodata.isSome || options.dst_nodata.isSome then
      options.warp_options.with_band_count band_count
    else options.warp_options
  match (match options.src_nodata with
         | some v => warp_options.apply_src_nodata v
         | none => Except.ok warp_options) with
  | Except.error e => Except.error e
  | Except.ok w1 =>
    match (match options.dst_nodata with
           | some v => w1.apply_dst_nodata v
           | none => Except.ok w1) with
    | Except.error e => Except.error e
    | Except.ok w2 =>
      Except.ok (if w2.working_datatype.isNone then w2.with_auto_working_datatype else w2)

/-- Source-SRS resolution of `create_and_reproject_image`
(create_and_reproject.rs, lines 130-136): serialize the override to
well-known text and a C string when present, otherwise a null pointer. -/
def resolveSrcWkt (options : CreateReprojectOptions) : Except GdalError (Option String) :=
  match options.src_projection with
  | none => Except.ok none
  | some s =>
    match s.to_wkt with
    | Except.error e => Except.error e
    | Except.ok w =>
      match cstringNew w with
      | Except.error e => Except.error e
      | Except.ok cw => Except.ok (some cw)

/-- Driver resolution of `create_and_reproject_image`
(create_and_reproject.rs, lines 140-145): registry lookup of the requested
format identifier, else the source dataset's own driver. -/
def resolveDriver (registry : List String) (src : Dataset)
    (options : CreateReprojectOptions) : Except GdalError String :=
  match options.output_format with
  | none => Except.ok src.driver
  | some f => get_driver_by_name registry f

/-- Resolution phase of `create_and_reproject_image` (create_and_reproject.rs,
lines 126-169), in source order: destination path to C string, destination
SRS serialization, optional source SRS serialization, max-error default,
driver resolution, warp-configuration compilation — producing the engine's
argument vector, or the first error. -/
def resolveEngineCall (registry : List String) (src : Dataset) (dst_file : String)
    (dst_srs : SpatialRef) (options : CreateReprojectOptions) :
    Except GdalError EngineCall :=
  match pathToCString dst_file with
  | Except.error e => Except.error e
  | Except.ok dest =>
  match dst_srs.to_wkt with
  | Except.error e => Except.error e
  | Except.ok dwkt =>
  match cstringNew dwkt with
  | Except.error e => Except.error e
  | Except.ok dst_wkt =>
  match resolveSrcWkt options with
  | Except.error e => Except.error e
  | Except.ok src_wkt =>
  match resolveDriver registry src options with
  | Except.error e => Except.error e
  | Except.ok driver =>
  match createReprojectCompile options src.raster_count with
  | Except.error e => Except.error e
  | Except.ok warp_options =>
    Except.ok
      { srcDataset := src
        srcSrs := src_wkt
        dstPath := dest
        dstSrs := dst_wkt
        driver := driver
        resampling_alg := warp_options.resampling_alg
        memory_limit := warp_options.memory_limit
        maxError := options.max_error.getD 0
        warpOptions := warp_options }

/-- Set the no-data metadata value on every band of a dataset (the fixup loop
over bands `1..=raster_count`, each `set_no_data_value(options.dst_nodata)`). -/
def setAllNoData (d : Dataset) (v : Option F64) : Dataset :=
  { d with bands := d.bands.map (fun b => { b with noDataValue := v }) }

/-- Outcome of a full `create_and_reproject_image` run: the returned result,
the final file store, and the engine calls that were made. -/
structure RunResult where
  result : Except GdalError Unit
  files : FileSystem
  engineCalls : List EngineCall

/-- `create_and_reproject_image` (create_and_reproject.rs, lines 120-204):
resolve arguments, invoke the engine once, translate a non-success status
into the last CPL error, and — when a destination no-data value was
requested — reopen the freshly created output and set that value on every
band. -/
def create_and_reproject_image (env : Env) (fs : FileSystem) (src : Dataset)
    (dst_file : String) (dst_srs : SpatialRef) (options : CreateReprojectOptions) :
    RunResult :=
  match resolveEngineCall env.registry src dst_file dst_srs options with
  | Except.error e => ⟨Except.error e, fs, []⟩
  | Except.ok call =>
    match env.engine call with
    | EngineOutcome.failure msg => ⟨Except.error (GdalError.cplError msg), fs, [call]⟩
    | EngineOutcome.success written =>
      let fs1 := fsInsert fs dst_file written
      match options.dst_nodata with
      | none => ⟨Except.ok (), fs1, [call]⟩
      | some _ =>
        match fsLookup fs1 dst_file with
        | none => ⟨Except.error GdalError.openFailed, fs1, [call]⟩
        | some ds =>
          ⟨Except.ok (), fsInsert fs1 dst_file (setAllNoData ds options.dst_nodata), [call]⟩

/-- The argument vector handed to `GDALReprojectImage` by `reproject_image`:
source and destination dataset handles, SRS texts or null, resampling
algorithm, memory limit, max error, and an optional warp configuration. -/
structure ReprojectImageCall where
  srcDataset : Dataset
  srcSrs : Option String
  dstDataset : Dataset
  dstSrs : Option String
  resampling_alg : WarpResampleAlg
  memory_limit : F64
  maxError : F64
  warpOptions : Option GdalWarpOptions
deriving DecidableEq, Repr

/-- Modelled from the spec: status of the dataset-to-dataset engine
primitive — success (`CE_None`) or failure with a diagnostic message. -/
inductive EngineStatus where
  | ceNone : EngineStatus
  | failure : String → EngineStatus

/-- The fixed argument vector `reproject_image` hands `GDALReprojectImage`
(mod.rs, lines 37-48): null SRS texts, bilinear resampling, zero memory
limit and max error, null warp configuration. -/
def fixedReprojectCall (src dst : Dataset) : ReprojectImageCall :=
  { srcDataset := src
    srcSrs := none
    dstDataset := dst
    dstSrs := none
    resampling_alg := WarpResampleAlg.bilinear
    memory_limit := 0
    maxError := 0
    warpOptions := none }

/-- `reproject_image` (mod.rs, lines 35-54): one engine invocation with null
source and destination SRS, bilinear resampling, zero memory limit and max
error, and a null warp configuration; a non-success status is translated
into the last CPL error. -/
def reproject_image (engine : ReprojectImageCall → EngineStatus)
    (src dst : Dataset) : Except GdalError Unit × ReprojectImageCall :=
  let call : ReprojectImageCall := fixedReprojectCall src dst
  match engine call with
  | EngineStatus.ceNone => (Except.ok (), call)
  | EngineStatus.failure msg => (Except.error (GdalError.cplError msg), call)

/-- The configuration value the compilation pipeline produces: conditional
band sizing, per-band no-data broadcast, auto working datatype.  This is a
proof-side characterization of the pipeline's output (the pipeline itself
never fails, because sizing always precedes value application). -/
def compiledConfig (w : GdalWarpOptions) (sn dn : Option F64) (bc : Nat) : GdalWarpOptions :=
  let w0 := if sn.isSome || dn.isSome then w.with_band_count bc else w
  let w1 := match sn with
            | some v => { w0 with src_nodata := some (List.replicate bc v) }
            | none => w0
  let w2 := match dn with
            | some v => { w1 with dst_nodata := some (List.replicate bc v) }
            | none => w1
  if w2.working_datatype.isNone then w2.with_auto_working_datatype else w2

/-- Example one-band source dataset owned by the GTiff driver. -/
def exSrcDataset : Dataset := { bands := [{ noDataValue := none }], driver := "GTiff" }

/-- Example two-band destination dataset. -/
def exDstDataset : Dataset :=
  { bands := [{ noDataValue := none }, { noDataValue := none }], driver := "GTiff" }

/-- Example three-band dataset the engine writes on success. -/
def exWrittenDataset : Dataset :=
  { bands := [{ noDataValue := none }, { noDataValue := none }, { noDataValue := none }],
    driver := "GTiff" }

/-- Example well-formed destination SRS. -/
def exDstSrs : SpatialRef := { wkt := some "DST_WKT" }

/-- Example well-formed source SRS override. -/
def exSrcSrs : SpatialRef := { wkt := some "SRC_WKT" }

/-- Example malformed SRS, whose serialization fails. -/
def exBadSrs : SpatialRef := { wkt := none }

/-- Example environment: a GTiff-only driver registry and an engine that
always succeeds, writing `exWrittenDataset` (without no-data metadata). -/
def exEnv : Env :=
  { registry := ["GTiff"], engine := fun _ => EngineOutcome.success exWrittenDataset }

/-- Example options requesting destination no-data `255.0`. -/
def exOptsC1 : CreateReprojectOptions := { dst_nodata := some 255 }

/-- Example options requesting a format identifier absent from the registry. -/
def exOptsC5 : CreateReprojectOptions := { output_format := some "BOGUS" }

/-- Example options with a source-SRS override. -/
def exOptsC6 : CreateReprojectOptions := { src_srs := some exSrcSrs }

/-- Example options with a malformed source-SRS override. -/
def exOptsC6bad : CreateReprojectOptions := { src_srs := some exBadSrs }

/-- Example all-default options (`max_error` unset). -/
def exOptsC7 : CreateReprojectOptions := {}

/-- Example reproject options carrying both scalar no-data overrides. -/
def exRoC2 : ReprojectOptions := { src_nodata := some 1, dst_nodata := some 255 }

/-- Example create options carrying both scalar no-data overrides. -/
def exCoC2 : CreateReprojectOptions := { src_nodata := some 1, dst_nodata := some 255 }

/-- Example reproject options with no no-data override and a pre-sized draft. -/
def exRoC8 : ReprojectOptions := { warp_options := { band_count := some 7 } }

/-- Example create options with no no-data override and a pre-sized draft. -/
def exCoC8 : CreateReprojectOptions := { warp_options := { band_count := some 7 } }

/-- Example reproject-into options with a source-SRS override and a
destination no-data value. -/
def exRioC3 : ReprojectIntoOptions := { src_srs := some exSrcSrs, dst_nodata := some 255 }

/-- The configuration `exRioC3` compiles to at band count 2. -/
def exCompiledC3 : GdalWarpOptions :=
  { working_datatype := some WorkingDataType.auto
    band_count := some 2
    dst_nodata := some (List.replicate 2 (255 : F64)) }

/-- The configuration all-default options compile to (only the working
datatype is touched, marked for auto-derivation). -/
def exCompiledDefault : GdalWarpOptions := { working_datatype := some WorkingDataType.auto }

/-! ## Helper lemmas -/

theorem isOkE_true_iff {ε α : Type} (e : Except ε α) :
    isOkE e = true ↔ ∃ a, e = Except.ok a := by
  cases e <;> simp [isOkE]

theorem fsLookup_fsInsert (fs : FileSystem) (p : String) (d : Dataset) :
    fsLookup (fsInsert fs p d) p = some d := by
  simp [fsInsert, fsLookup]

theorem createReprojectCompile_ok (options : CreateReprojectOptions) (bc : Nat) :
    createReprojectCompile options bc =
      Except.ok (compiledConfig options.warp_options options.src_nodata options.dst_nodata bc) := by
  unfold createReprojectCompile compiledConfig
  cases hs : options.src_nodata <;> cases hd : options.dst_nodata <;>
    simp [hs, hd, GdalWarpOptions.apply_src_nodata, GdalWarpOptions.apply_dst_nodata,
      GdalWarpOptions.with_band_count]

theorem clone_init_ro_eq_compile (ro : ReprojectOptions) (bc : Nat) :
    ro.clone_and_init_warp_options bc =
      createReprojectCompile
        ⟨ro.warp_options, ro.max_error, ro.src_srs, ro.src_nodata, ro.dst_nodata,
          ro.output_format⟩ bc := by
  rcases ro with ⟨w, me, ss, sn, dn, ofmt⟩
  rfl

theorem clone_init_rio_eq_compile (rio : ReprojectIntoOptions) (bc : Nat) :
    rio.clone_and_init_warp_options bc =
      createReprojectCompile
        ⟨rio.warp_options, rio.max_error, rio.src_srs, rio.src_nodata, rio.dst_nodata,
          none⟩ bc := by
  rcases rio with ⟨w, me, ss, ds, sn, dn⟩
  rfl

theorem resolve_ok_parts (registry : List String) (src : Dataset) (dst_file : String)
    (dst_srs : SpatialRef) (options : CreateReprojectOptions) (c : EngineCall)
    (h : resolveEngineCall registry src dst_file dst_srs options = Except.ok c) :
    c.maxError = options.max_error.getD 0
  ∧ resolveDriver registry src options = Except.ok c.driver
  ∧ resolveSrcWkt options = Except.ok c.srcSrs
  ∧ createReprojectCompile options src.raster_count = Except.ok c.warpOptions
  ∧ pathToCString dst_file = Except.ok c.dstPath := by
  unfold resolveEngineCall at h
  cases hp : pathToCString dst_file with
  | error e => simp [hp] at h
  | ok dest =>
  simp only [hp] at h
  cases hd : dst_srs.to_wkt with
  | error e => simp [hd] at h
  | ok dwkt =>
  simp only [hd] at h
  cases hc : cstringNew dwkt with
  | error e => simp [hc] at h
  | ok dst_wkt =>
  simp only [hc] at h
  cases hs : resolveSrcWkt options with
  | error e => simp [hs] at h
  | ok src_wkt =>
  simp only [hs] at h
  cases hdrv : resolveDriver registry src options with
  | error e => simp [hdrv] at h
  | ok driver =>
  simp only [hdrv] at h
  cases hcomp : createReprojectCompile options src.raster_count with
  | error e => simp [hcomp] at h
  | ok warp_options =>
  simp only [hcomp] at h
  injection h with h
  subst h
  exact ⟨rfl, rfl, rfl, rfl, rfl⟩

theorem resolveDriver_unknown (registry : List String) (src : Dataset)
    (options : CreateReprojectOptions) (fmt : String)
    (h1 : options.output_format = some fmt) (h2 : fmt ∉ registry) :
    resolveDriver registry src options = Except.error (GdalError.unknownDriver fmt) := by
  simp [resolveDriver, h1, get_driver_by_name, h2]

theorem resolveDriver_some_ok (registry : List String) (src : Dataset)
    (options : CreateReprojectOptions) (fmt d : String)
    (h1 : options.output_format = some fmt)
    (h2 : resolveDriver registry src options = Except.ok d) :
    fmt ∈ registry ∧ d = fmt := by
  simp only [resolveDriver, h1, get_driver_by_name] at h2
  by_cases hmem : fmt ∈ registry
  · simp [hmem] at h2
    exact ⟨hmem, h2.symm⟩
  · simp [hmem] at h2

theorem resolveSrcWkt_some_ok (options : CreateReprojectOptions) (s : SpatialRef)
    (o : Option String) (h1 : options.src_srs = some s)
    (h2 : resolveSrcWkt options = Except.ok o) :
    ∃ w, s.to_wkt = Except.ok w ∧ o = some w := by
  simp only [resolveSrcWkt, CreateReprojectOptions.src_projection, h1] at h2
  cases hw : s.to_wkt with
  | error e => simp [hw] at h2
  | ok w =>
    simp only [hw] at h2
    cases hc : cstringNew w with
    | error e => simp [hc] at h2
    | ok cw =>
      simp only [hc] at h2
      injection h2 with h2
      have hcw : cw = w := by
        simp only [cstringNew] at hc
        by_cases hn : hasInteriorNul w = true
        · simp [hn] at hc
        · simp [hn] at hc
          exact hc.symm
      exact ⟨w, rfl, by rw [← h2, hcw]⟩

theorem resolveSrcWkt_bad (options : CreateReprojectOptions) (s : SpatialRef)
    (h1 : options.src_srs = some s)
    (h2 : s.to_wkt = Except.error GdalError.srsSerializationError) :
    resolveSrcWkt options = Except.error GdalError.srsSerializationError := by
  simp [resolveSrcWkt, CreateReprojectOptions.src_projection, h1, h2]

theorem resolveSrcWkt_none (options : CreateReprojectOptions)
    (h1 : options.src_srs = none) :
    resolveSrcWkt options = Except.ok none := by
  simp [resolveSrcWkt, CreateReprojectOptions.src_projection, h1]

theorem run_engineCalls_indep_fs (env : Env) (fs fs2 : FileSystem) (src : Dataset)
    (dst_file : String) (dst_srs : SpatialRef) (options : CreateReprojectOptions) :
    (create_and_reproject_image env fs src dst_file dst_srs options).engineCalls
      = (create_and_reproject_image env fs2 src dst_file dst_srs options).engineCalls := by
  unfold create_and_reproject_image
  cases hres : resolveEngineCall env.registry src dst_file dst_srs options with
  | error e => simp [hres]
  | ok call =>
    simp only [hres]
    cases heng : env.engine call with
    | failure msg => simp [heng]
    | success written =>
      simp only [heng]
      cases hn : options.dst_nodata with
      | none => simp [hn]
      | some v => simp [hn, fsLookup_fsInsert]

/-! ## Claims -/

/-- Claim C9: the three compilation sites are equivalent — for every identical
assignment of warp-configuration draft, source no-data and destination
no-data, and every band count, `ReprojectOptions.clone_and_init_warp_options`,
`ReprojectIntoOptions.clone_and_init_warp_options` and the inline compilation
sequence of `create_and_reproject_image` produce the same configuration and
fail under the same conditions. -/
theorem c9_compilation_sites_agree (w : GdalWarpOptions) (me : Option F64)
    (ss ds : Option SpatialRef) (sn dn : Option F64) (ofmt : Option String) (bc : Nat) :
    (ReprojectOptions.mk w me ss sn dn ofmt).clone_and_init_warp_options bc
      = (ReprojectIntoOptions.mk w me ss ds sn dn).clone_and_init_warp_options bc
  ∧ (ReprojectOptions.mk w me ss sn dn ofmt).clone_and_init_warp_options bc
      = createReprojectCompile (CreateReprojectOptions.mk w me ss sn dn ofmt) bc :=
  ⟨rfl, rfl⟩

/-- Claim C10: `reproject_image` invokes the engine with fixed parameters
independent of any options value — null source and destination SRS, bilinear
resampling, memory limit `0.0`, max error `0.0`, no warp configuration — and
its result is success exactly when the engine reports success on that call. -/
theorem c10_reproject_image_fixed_params (engine : ReprojectImageCall → EngineStatus)
    (src dst : Dataset) :
    (reproject_image engine src dst).2.srcSrs = none
  ∧ (reproject_image engine src dst).2.dstSrs = none
  ∧ (reproject_image engine src dst).2.resampling_alg = WarpResampleAlg.bilinear
  ∧ (reproject_image engine src dst).2.memory_limit = 0
  ∧ (reproject_image engine src dst).2.maxError = 0
  ∧ (reproject_image engine src dst).2.warpOptions = none
  ∧ (reproject_image engine src dst).2.srcDataset = src
  ∧ (reproject_image engine src dst).2.dstDataset = dst
  ∧ ((reproject_image engine src dst).1 = Except.ok () ↔
      engine (reproject_image engine src dst).2 = EngineStatus.ceNone) := by
  simp only [reproject_image]
  cases h : engine (fixedReprojectCall src dst) <;>
    simp only [fixedReprojectCall] at h <;> simp [h, fixedReprojectCall]

/-- Claim C3, counterexample: the reproject-into-existing-dataset entry point
`reproject_image` hands the engine a null warp configuration and a null
source SRS — it accepts no options value, so no SRS override resolution and
no configuration compilation occur — even though the (unused)
`ReprojectIntoOptions` compiler would have produced a configuration (here
`exCompiledC3` for band count 2 of `exDstDataset`). -/
theorem c3_counterexample :
    (reproject_image (fun _ => EngineStatus.ceNone) exSrcDataset exDstDataset).2.warpOptions
      = none
  ∧ (reproject_image (fun _ => EngineStatus.ceNone) exSrcDataset exDstDataset).2.srcSrs = none
  ∧ exRioC3.clone_and_init_warp_options exDstDataset.raster_count = Except.ok exCompiledC3
  ∧ some exCompiledC3
      ≠ (reproject_image (fun _ => EngineStatus.ceNone) exSrcDataset exDstDataset).2.warpOptions :=
  ⟨rfl, rfl, rfl, by simp [reproject_image, fixedReprojectCall]⟩

/-- Claim C3 (amended): `reproject_image` accepts no options value; it invokes
the engine's dataset-to-dataset reprojection primitive with null source and
destination SRS (signalling that both are read from the datasets), a fixed
bilinear resampling algorithm, zero memory limit and max error, and a null
warp configuration, and propagates engine failure verbatim as the last
reported error. -/
theorem c3_amended_null_options_call (engine : ReprojectImageCall → EngineStatus)
    (src dst : Dataset) (msg : String)
    (h : engine (fixedReprojectCall src dst) = EngineStatus.failure msg) :
    (reproject_image engine src dst).2 = fixedReprojectCall src dst
  ∧ (reproject_image engine src dst).1 = Except.error (GdalError.cplError msg) := by
  simp only [reproject_image]
  simp [h]

theorem compiledConfig_nodata (w : GdalWarpOptions) (sn dn : Option F64) (bc : Nat)
    (h : sn.isSome = true ∨ dn.isSome = true) :
    (compiledConfig w sn dn bc).band_count = some bc
  ∧ (∀ v, sn = some v → (compiledConfig w sn dn bc).src_nodata = some (List.replicate bc v))
  ∧ (∀ v, dn = some v → (compiledConfig w sn dn bc).dst_nodata = some (List.replicate bc v)) := by
  unfold compiledConfig
  cases hs : sn <;> cases hd : dn <;> simp [hs, hd] at h ⊢ <;>
    split <;>
      simp [GdalWarpOptions.with_auto_working_datatype, GdalWarpOptions.with_band_count]

theorem compiledConfig_no_overrides (w : GdalWarpOptions) (bc : Nat) :
    (compiledConfig w none none bc).band_count = w.band_count
  ∧ (compiledConfig w none none bc).src_nodata = w.src_nodata
  ∧ (compiledConfig w none none bc).dst_nodata = w.dst_nodata := by
  unfold compiledConfig
  simp only [Option.isSome_none, Bool.or_self, Bool.false_eq_true, if_false]
  split <;> simp [GdalWarpOptions.with_auto_working_datatype]

/-- Claim C1: for every run of `create_and_reproject_image` in which the
options carry a destination no-data value and the run succeeds (which in
particular requires the engine call to report success), the orchestrator
reopens the freshly created output file and sets that no-data value on every
band of the output. -/
theorem c1_dst_nodata_fixup (env : Env) (fs : FileSystem) (src : Dataset)
    (dst_file : String) (dst_srs : SpatialRef) (options : CreateReprojectOptions) (v : F64)
    (hv : options.dst_nodata = some v)
    (hok : (create_and_reproject_image env fs src dst_file dst_srs options).result
            = Except.ok ()) :
    ∃ d, fsLookup (create_and_reproject_image env fs src dst_file dst_srs options).files
          dst_file = some d
      ∧ ∀ b ∈ d.bands, b.noDataValue = some v := by
  unfold create_and_reproject_image at hok ⊢
  cases hres : resolveEngineCall env.registry src dst_file dst_srs options with
  | error e => simp [hres] at hok
  | ok call =>
    simp only [hres] at hok ⊢
    cases heng : env.engine call with
    | failure msg => simp [heng] at hok
    | success written =>
      simp only [heng, hv, fsLookup_fsInsert] at hok ⊢
      refine ⟨setAllNoData written (some v), rfl, ?_⟩
      intro b hb
      simp only [setAllNoData, List.mem_map] at hb
      obtain ⟨a, -, rfl⟩ := hb
      rfl

/-- Claim C1, witness: destination no-data `255.0`, successful engine run;
every band of the reopened output reports no-data `255.0`. -/
theorem c1_witness :
    exOptsC1.dst_nodata = some 255
  ∧ (create_and_reproject_image exEnv [] exSrcDataset "out.tif" exDstSrs exOptsC1).result
      = Except.ok ()
  ∧ ∃ d, fsLookup (create_and_reproject_image exEnv [] exSrcDataset "out.tif" exDstSrs
        exOptsC1).files "out.tif" = some d
      ∧ ∀ b ∈ d.bands, b.noDataValue = some 255 :=
  ⟨rfl, rfl,
    c1_dst_nodata_fixup exEnv [] exSrcDataset "out.tif" exDstSrs exOptsC1 255 rfl rfl⟩

/-- Claim C2: whenever a source or destination scalar no-data override is
present, for every band count ≥ 1 both compilation sites (the
`ReprojectOptions` compiler and the inline sequence of
`create_and_reproject_image`) set the band count on the cloned configuration
before applying any no-data value: compilation succeeds with the band count
established and every applied no-data array sized to it, so no no-data value
is ever written to unsized per-band storage. -/
theorem c2_band_count_before_nodata (ro : ReprojectOptions) (co : CreateReprojectOptions)
    (bc : Nat) (hbc : 1 ≤ bc) :
    (ro.src_nodata.isSome = true ∨ ro.dst_nodata.isSome = true →
      ∃ w, ro.clone_and_init_warp_options bc = Except.ok w
        ∧ w.band_count = some bc
        ∧ (∀ v, ro.src_nodata = some v → w.src_nodata = some (List.replicate bc v))
        ∧ (∀ v, ro.dst_nodata = some v → w.dst_nodata = some (List.replicate bc v)))
  ∧ (co.src_nodata.isSome = true ∨ co.dst_nodata.isSome = true →
      ∃ w, createReprojectCompile co bc = Except.ok w
        ∧ w.band_count = some bc
        ∧ (∀ v, co.src_nodata = some v → w.src_nodata = some (List.replicate bc v))
        ∧ (∀ v, co.dst_nodata = some v → w.dst_nodata = some (List.replicate bc v))) := by
  constructor
  · intro h
    refine ⟨compiledConfig ro.warp_options ro.src_nodata ro.dst_nodata bc, ?_, ?_, ?_, ?_⟩
    · rw [clone_init_ro_eq_compile]
      exact createReprojectCompile_ok _ bc
    · exact (compiledConfig_nodata ro.warp_options ro.src_nodata ro.dst_nodata bc h).1
    · exact (compiledConfig_nodata ro.warp_options ro.src_nodata ro.dst_nodata bc h).2.1
    · exact (compiledConfig_nodata ro.warp_options ro.src_nodata ro.dst_nodata bc h).2.2
  · intro h
    refine ⟨compiledConfig co.warp_options co.src_nodata co.dst_nodata bc, ?_, ?_, ?_, ?_⟩
    · exact createReprojectCompile_ok co bc
    · exact (compiledConfig_nodata co.warp_options co.src_nodata co.dst_nodata bc h).1
    · exact (compiledConfig_nodata co.warp_options co.src_nodata co.dst_nodata bc h).2.1
    · exact (compiledConfig_nodata co.warp_options co.src_nodata co.dst_nodata bc h).2.2

/-- Claim C2, witness: both overrides present, band count 3 — compilation
succeeds, the band count is set, and both arrays are 3 long. -/
theorem c2_witness :
    1 ≤ 3
  ∧ (∃ w, exRoC2.clone_and_init_warp_options 3 = Except.ok w
      ∧ w.band_count = some 3
      ∧ (∀ v, exRoC2.src_nodata = some v → w.src_nodata = some (List.replicate 3 v))
      ∧ (∀ v, exRoC2.dst_nodata = some v → w.dst_nodata = some (List.replicate 3 v)))
  ∧ (∃ w, createReprojectCompile exCoC2 3 = Except.ok w
      ∧ w.band_count = some 3
      ∧ (∀ v, exCoC2.src_nodata = some v → w.src_nodata = some (List.replicate 3 v))
      ∧ (∀ v, exCoC2.dst_nodata = some v → w.dst_nodata = some (List.replicate 3 v))) :=
  ⟨by decide,
   (c2_band_count_before_nodata exRoC2 exCoC2 3 (by decide)).1 (Or.inl rfl),
   (c2_band_count_before_nodata exRoC2 exCoC2 3 (by decide)).2 (Or.inl rfl)⟩

/-- Claim C8: when neither no-data override is present, neither compilation
site sets the band count and no per-band array is allocated — the compiled
configuration's band-count and no-data state equals the caller's draft. -/
theorem c8_no_overrides_frame (ro : ReprojectOptions) (co : CreateReprojectOptions) (bc : Nat)
    (h1 : ro.src_nodata = none) (h2 : ro.dst_nodata = none)
    (h3 : co.src_nodata = none) (h4 : co.dst_nodata = none) :
    (∃ w, ro.clone_and_init_warp_options bc = Except.ok w
       ∧ w.band_count = ro.warp_options.band_count
       ∧ w.src_nodata = ro.warp_options.src_nodata
       ∧ w.dst_nodata = ro.warp_options.dst_nodata)
  ∧ (∃ w, createReprojectCompile co bc = Except.ok w
       ∧ w.band_count = co.warp_options.band_count
       ∧ w.src_nodata = co.warp_options.src_nodata
       ∧ w.dst_nodata = co.warp_options.dst_nodata) := by
  constructor
  · refine ⟨compiledConfig ro.warp_options ro.src_nodata ro.dst_nodata bc, ?_, ?_, ?_, ?_⟩
    · rw [clone_init_ro_eq_compile]
      exact createReprojectCompile_ok _ bc
    · rw [h1, h2]
      exact (compiledConfig_no_overrides ro.warp_options bc).1
    · rw [h1, h2]
      exact (compiledConfig_no_overrides ro.warp_options bc).2.1
    · rw [h1, h2]
      exact (compiledConfig_no_overrides ro.warp_options bc).2.2
  · refine ⟨compiledConfig co.warp_options co.src_nodata co.dst_nodata bc, ?_, ?_, ?_, ?_⟩
    · exact createReprojectCompile_ok co bc
    · rw [h3, h4]
      exact (compiledConfig_no_overrides co.warp_options bc).1
    · rw [h3, h4]
      exact (compiledConfig_no_overrides co.warp_options bc).2.1
    · rw [h3, h4]
      exact (compiledConfig_no_overrides co.warp_options bc).2.2

/-- Claim C8, witness: no overrides, a draft pre-sized to 7 bands, band
count 4 — the compiled configuration keeps the draft's band/no-data state. -/
theorem c8_witness :
    exRoC8.src_nodata = none ∧ exRoC8.dst_nodata = none
  ∧ exCoC8.src_nodata = none ∧ exCoC8.dst_nodata = none
  ∧ ((∃ w, exRoC8.clone_and_init_warp_options 4 = Except.ok w
       ∧ w.band_count = exRoC8.warp_options.band_count
       ∧ w.src_nodata = exRoC8.warp_options.src_nodata
       ∧ w.dst_nodata = exRoC8.warp_options.dst_nodata)
    ∧ (∃ w, createReprojectCompile exCoC8 4 = Except.ok w
       ∧ w.band_count = exCoC8.warp_options.band_count
       ∧ w.src_nodata = exCoC8.warp_options.src_nodata
       ∧ w.dst_nodata = exCoC8.warp_options.dst_nodata)) :=
  ⟨rfl, rfl, rfl, rfl, c8_no_overrides_frame exRoC8 exCoC8 4 rfl rfl rfl rfl⟩

/-- Claim C4: compilation is deterministic and does not mutate the options
value: two compilations of the same options with the same band count yield
identical configurations (hence identical no-data values and working
datatype), and because each orchestration run compiles from a fresh clone,
a second run from the files the first run left behind issues the same
engine calls — nothing the first call did leaks into the second. -/
theorem c4_compilation_deterministic (ro : ReprojectOptions) (bc : Nat) (env : Env)
    (fs : FileSystem) (src : Dataset) (dst_file : String) (dst_srs : SpatialRef)
    (co : CreateReprojectOptions) :
    (∀ w1 w2, ro.clone_and_init_warp_options bc = Except.ok w1 →
        ro.clone_and_init_warp_options bc = Except.ok w2 →
        w1.src_nodata = w2.src_nodata ∧ w1.dst_nodata = w2.dst_nodata
          ∧ w1.working_datatype = w2.working_datatype)
  ∧ (create_and_reproject_image env fs src dst_file dst_srs co).engineCalls
      = (create_and_reproject_image env
          (create_and_reproject_image env fs src dst_file dst_srs co).files
          src dst_file dst_srs co).engineCalls := by
  constructor
  · intro w1 w2 h1 h2
    rw [h1] at h2
    injection h2 with h2
    subst h2
    exact ⟨rfl, rfl, rfl⟩
  · exact run_engineCalls_indep_fs env fs _ src dst_file dst_srs co

/-- Claim C4, witness: default options compile twice to the same
configuration, and a back-to-back pair of orchestration runs issues equal
engine calls. -/
theorem c4_witness :
    ({} : ReprojectOptions).clone_and_init_warp_options 2 = Except.ok exCompiledDefault
  ∧ (exCompiledDefault.src_nodata = exCompiledDefault.src_nodata
      ∧ exCompiledDefault.dst_nodata = exCompiledDefault.dst_nodata
      ∧ exCompiledDefault.working_datatype = exCompiledDefault.working_datatype)
  ∧ (create_and_reproject_image exEnv [] exSrcDataset "out.tif" exDstSrs exOptsC1).engineCalls
      = (create_and_reproject_image exEnv
          (create_and_reproject_image exEnv [] exSrcDataset "out.tif" exDstSrs
            exOptsC1).files
          exSrcDataset "out.tif" exDstSrs exOptsC1).engineCalls :=
  ⟨rfl,
   (c4_compilation_deterministic {} 2 exEnv [] exSrcDataset "out.tif" exDstSrs exOptsC1).1
     exCompiledDefault exCompiledDefault rfl rfl,
   (c4_compilation_deterministic {} 2 exEnv [] exSrcDataset "out.tif" exDstSrs exOptsC1).2⟩

/-- Claim C5: an output format identifier, when specified, is looked up in
the driver registry; an unknown identifier makes the call fail before the
warp engine is ever invoked, leaving the file store untouched (no partial
output); a known identifier becomes the engine's driver; with no format the
source dataset's own driver is used. -/
theorem c5_driver_resolution (env : Env) (fs : FileSystem) (src : Dataset)
    (dst_file : String) (dst_srs : SpatialRef) (options : CreateReprojectOptions) :
    (∀ fmt, options.output_format = some fmt → fmt ∉ env.registry →
        get_driver_by_name env.registry fmt = Except.error (GdalError.unknownDriver fmt)
      ∧ isOkE (create_and_reproject_image env fs src dst_file dst_srs options).result = false
      ∧ (create_and_reproject_image env fs src dst_file dst_srs options).engineCalls = []
      ∧ (create_and_reproject_image env fs src dst_file dst_srs options).files = fs)
  ∧ (∀ fmt, options.output_format = some fmt →
        isOkE (resolveEngineCall env.registry src dst_file dst_srs options) = true →
        fmt ∈ env.registry
      ∧ (resolveEngineCall env.registry src dst_file dst_srs options).map EngineCall.driver
          = Except.ok fmt)
  ∧ (options.output_format = none →
        isOkE (resolveEngineCall env.registry src dst_file dst_srs options) = true →
        (resolveEngineCall env.registry src dst_file dst_srs options).map EngineCall.driver
          = Except.ok src.driver) := by
  refine ⟨?_, ?_, ?_⟩
  · intro fmt h1 h2
    have hdrv := resolveDriver_unknown env.registry src options fmt h1 h2
    have hfail : ∀ c, resolveEngineCall env.registry src dst_file dst_srs options
        ≠ Except.ok c := by
      intro c hc
      have hd2 := (resolve_ok_parts _ _ _ _ _ _ hc).2.1
      rw [hdrv] at hd2
      cases hd2
    cases hres : resolveEngineCall env.registry src dst_file dst_srs options with
    | ok c => exact absurd hres (hfail c)
    | error e =>
      refine ⟨by simp [get_driver_by_name, h2], ?_, ?_, ?_⟩ <;>
        simp [create_and_reproject_image, hres, isOkE]
  · intro fmt h1 h2
    obtain ⟨c, hc⟩ := (isOkE_true_iff _).mp h2
    have parts := resolve_ok_parts _ _ _ _ _ _ hc
    obtain ⟨hmem, hdq⟩ := resolveDriver_some_ok env.registry src options fmt c.driver h1
      parts.2.1
    refine ⟨hmem, ?_⟩
    rw [hc]
    simp [Except.map, hdq]
  · intro h1 h2
    obtain ⟨c, hc⟩ := (isOkE_true_iff _).mp h2
    have parts := resolve_ok_parts _ _ _ _ _ _ hc
    have hd : Except.ok (ε := GdalError) src.driver = Except.ok c.driver := by
      rw [← parts.2.1]
      simp [resolveDriver, h1]
    injection hd with hd
    rw [hc]
    simp [Except.map, ← hd]

/-- Claim C5, witness: requesting the unknown format `BOGUS` fails with an
unknown-driver registry lookup, no engine call is made and the file store is
left untouched. -/
theorem c5_witness :
    exOptsC5.output_format = some "BOGUS"
  ∧ "BOGUS" ∉ exEnv.registry
  ∧ (get_driver_by_name exEnv.registry "BOGUS"
        = Except.error (GdalError.unknownDriver "BOGUS")
     ∧ isOkE (create_and_reproject_image exEnv [] exSrcDataset "out.tif" exDstSrs
          exOptsC5).result = false
     ∧ (create_and_reproject_image exEnv [] exSrcDataset "out.tif" exDstSrs
          exOptsC5).engineCalls = []
     ∧ (create_and_reproject_image exEnv [] exSrcDataset "out.tif" exDstSrs
          exOptsC5).files = []) :=
  ⟨rfl, by decide,
   (c5_driver_resolution exEnv [] exSrcDataset "out.tif" exDstSrs exOptsC5).1 "BOGUS" rfl
     (by decide)⟩

/-- Claim C6: when a source SRS override is present and the call succeeds,
the engine receives the override's serialization as the source SRS; when the
override's serialization fails, the whole call fails; when no override is
present, the engine receives a null source SRS (read from the source
dataset). -/
theorem c6_src_srs_resolution (registry : List String) (src : Dataset) (dst_file : String)
    (dst_srs : SpatialRef) (options : CreateReprojectOptions) :
    (∀ s, options.src_srs = some s →
        isOkE (resolveEngineCall registry src dst_file dst_srs options) = true →
        ∃ w, s.to_wkt = Except.ok w
          ∧ (resolveEngineCall registry src dst_file dst_srs options).map EngineCall.srcSrs
              = Except.ok (some w))
  ∧ (∀ s, options.src_srs = some s →
        s.to_wkt = Except.error GdalError.srsSerializationError →
        isOkE (resolveEngineCall registry src dst_file dst_srs options) = false)
  ∧ (options.src_srs = none →
        isOkE (resolveEngineCall registry src dst_file dst_srs options) = true →
        (resolveEngineCall registry src dst_file dst_srs options).map EngineCall.srcSrs
          = Except.ok none) := by
  refine ⟨?_, ?_, ?_⟩
  · intro s h1 h2
    obtain ⟨c, hc⟩ := (isOkE_true_iff _).mp h2
    have parts := resolve_ok_parts _ _ _ _ _ _ hc
    obtain ⟨w, hw, ho⟩ := resolveSrcWkt_some_ok options s c.srcSrs h1 parts.2.2.1
    refine ⟨w, hw, ?_⟩
    rw [hc]
    simp [Except.map, ho]
  · intro s h1 h2
    cases hres : resolveEngineCall registry src dst_file dst_srs options with
    | error e => simp [isOkE]
    | ok c =>
      have parts := resolve_ok_parts _ _ _ _ _ _ hres
      have hbad := resolveSrcWkt_bad options s h1 h2
      rw [hbad] at parts
      cases parts.2.2.1
  · intro h1 h2
    obtain ⟨c, hc⟩ := (isOkE_true_iff _).mp h2
    have parts := resolve_ok_parts _ _ _ _ _ _ hc
    have hn := resolveSrcWkt_none options h1
    rw [hn] at parts
    have hcs : (none : Option String) = c.srcSrs := by
      have := parts.2.2.1
      injection this
    rw [hc]
    simp [Except.map, ← hcs]

/-- Claim C6, witness: a well-formed source override serializes to
`SRC_WKT`, and the engine call carries exactly that text as source SRS. -/
theorem c6_witness :
    exOptsC6.src_srs = some exSrcSrs
  ∧ isOkE (resolveEngineCall ["GTiff"] exSrcDataset "out.tif" exDstSrs exOptsC6) = true
  ∧ (∃ w, exSrcSrs.to_wkt = Except.ok w
       ∧ (resolveEngineCall ["GTiff"] exSrcDataset "out.tif" exDstSrs exOptsC6).map
            EngineCall.srcSrs = Except.ok (some w)) :=
  ⟨rfl, rfl,
   (c6_src_srs_resolution ["GTiff"] exSrcDataset "out.tif" exDstSrs exOptsC6).1 exSrcSrs
     rfl rfl⟩

/-- Claim C7: when `max_error` is unset, the engine is invoked with a max
error of exactly `0.0`. -/
theorem c7_max_error_default_zero (registry : List String) (src : Dataset)
    (dst_file : String) (dst_srs : SpatialRef) (options : CreateReprojectOptions)
    (h1 : options.max_error = none)
    (h2 : isOkE (resolveEngineCall registry src dst_file dst_srs options) = true) :
    (resolveEngineCall registry src dst_file dst_srs options).map EngineCall.maxError
      = Except.ok 0 := by
  obtain ⟨c, hc⟩ := (isOkE_true_iff _).mp h2
  have parts := resolve_ok_parts _ _ _ _ _ _ hc
  rw [hc]
  simp [Except.map, parts.1, h1]

/-- Claim C7, witness: all-default options resolve successfully and the
engine call's max error is `0`. -/
theorem c7_witness :
    exOptsC7.max_error = none
  ∧ isOkE (resolveEngineCall ["GTiff"] exSrcDataset "out.tif" exDstSrs exOptsC7) = true
  ∧ (resolveEngineCall ["GTiff"] exSrcDataset "out.tif" exDstSrs exOptsC7).map
      EngineCall.maxError = Except.ok 0 :=
  ⟨rfl, rfl,
   c7_max_error_default_zero ["GTiff"] exSrcDataset "out.tif" exDstSrs exOptsC7 rfl rfl⟩

/-- Claim C3 (amended), witness: a concrete failing engine — the call made is
the fixed null-options vector and the failure message is propagated. -/
theorem c3_witness :
    ((fun _ => EngineStatus.failure "boom") (fixedReprojectCall exSrcDataset exDstDataset)
        = EngineStatus.failure "boom")
  ∧ ((reproject_image (fun _ => EngineStatus.failure "boom") exSrcDataset exDstDataset).2
        = fixedReprojectCall exSrcDataset exDstDataset
     ∧ (reproject_image (fun _ => EngineStatus.failure "boom") exSrcDataset exDstDataset).1
        = Except.error (GdalError.cplError "boom")) :=
  ⟨rfl,
   c3_amended_null_options_call (fun _ => EngineStatus.failure "boom") exSrcDataset
     exDstDataset "boom" rfl⟩
